import Mathlib

set_option maxRecDepth 4000

/-!
Shallow embedding of `src/agent.py` (VerbaFlow): the transcription agent's
prompt building and reply post-processing, the document exporters' text
cleaning, the temporary-file handling of `main`, and the Streamlit session
state machine. External model calls (`genai.GenerativeModel.generate_content`)
are modelled as oracle functions returning `Except String String`: `Except.ok`
is a normal reply (`response.text`), `Except.error` is a raised exception.
-/

/-- The triple-quoted transcription prompt of `listen_and_transcribe`
(agent.py lines 48-53). -/
def transcriptionPrompt : String :=
  "\n            Listen to this audio carefully. It may contain English, Hindi, or Hinglish.\n            1. Transcribe it exactly as spoken.\n            2. Distinguish between speakers (e.g., 'Speaker 1:', 'Speaker 2:').\n            3. If it's a lecture, label the main speaker as 'Lecturer'.\n            "

/-- The `prompts` dict of `think_and_process` (agent.py lines 60-72), as an
association list in the dict's insertion order; each value is the f-string
with `text` spliced in. -/
def promptTemplates (text : String) : List (String × String) :=
  [("Summarize", "Create a comprehensive bullet-point summary:\n\n" ++ text),
   ("Elaborate", "Explain the concepts simply for a beginner:\n\n" ++ text),
   ("Action Items", "Identify tasks and assignments as a checklist:\n\n" ++ text),
   ("Quiz", "Generate 3 quiz questions with answers at the bottom:\n\n" ++ text),
   ("Mind Map",
     "\n            Create a Mermaid.js flowchart code to visualize connections.\n            - Start with 'graph TD'.\n            - Use short node labels.\n            - Do NOT use markdown code blocks. Return raw code only.\n            Text: "
       ++ text ++ "\n            ")]

/-- `prompts.get(task, "Analyze this text.")` (agent.py line 73). -/
def buildPrompt (task text : String) : String :=
  ((promptTemplates text).lookup task).getD "Analyze this text."

/-- The tasks named by the keys of the `prompts` dict. -/
def supportedTasks : List String :=
  ["Summarize", "Elaborate", "Action Items", "Quiz", "Mind Map"]

/-- The characters of the pattern `"```"` removed at agent.py line 75. -/
def fencePat : List Char := ['`', '`', '`']

/-- The characters of the pattern `"```mermaid"` removed at agent.py line 75. -/
def mermaidPat : List Char := ['`', '`', '`', 'm', 'e', 'r', 'm', 'a', 'i', 'd']

theorem fencePat_eq_data : fencePat = "```".data := rfl

theorem mermaidPat_eq_data : mermaidPat = "```mermaid".data := rfl

/-- Python `str.replace(pat, "")` on lists of characters: one left-to-right
scan removing each non-overlapping occurrence of `pat`. The `Nat` argument is
fuel; `pyRemove` supplies `s.length`, which suffices whenever `pat ≠ []`. -/
def removeAux (pat : List Char) : Nat → List Char → List Char
  | 0, s => s
  | _ + 1, [] => []
  | n + 1, c :: rest =>
    if pat <+: (c :: rest) then removeAux pat n ((c :: rest).drop pat.length)
    else c :: removeAux pat n rest

/-- `s.replace(pat, "")` for a non-empty pattern `pat`. -/
def pyRemove (pat : List Char) (s : List Char) : List Char :=
  removeAux pat s.length s

/-- The whitespace characters Python's `str.strip()` removes (ASCII range). -/
def pySpace (c : Char) : Bool :=
  c == ' ' || c == '\t' || c == '\n' || c == '\r' || c == '\x0b' || c == '\x0c'

/-- Python `str.strip()`: drop leading and trailing whitespace. -/
def pyStrip (s : List Char) : List Char :=
  ((s.dropWhile pySpace).reverse.dropWhile pySpace).reverse

/-- The post-processing of agent.py line 75:
`response.text.replace("```mermaid", "").replace("```", "").strip()`. -/
def postprocessReply (s : String) : String :=
  String.mk (pyStrip (pyRemove fencePat (pyRemove mermaidPat s.data)))

/-- `listen_and_transcribe` (agent.py lines 44-57): the audio file is uploaded
and sent with the transcription prompt; a raised exception is caught and
returned as the string `"Agent Error: " ++ str(e)`. The gateway oracle takes
the prompt and the uploaded audio file (by id). -/
def listen_and_transcribe (gen : String → Nat → Except String String)
    (audioPath : Nat) : String :=
  match gen transcriptionPrompt audioPath with
  | Except.ok t => t
  | Except.error e => "Agent Error: " ++ e

/-- `think_and_process` (agent.py lines 59-75): build the prompt, call the
model, post-process the reply. There is no try/except here: a raised
exception propagates (modelled as `Except.error`). -/
def think_and_process (gen : String → Except String String)
    (text task : String) : Except String String :=
  match gen (buildPrompt task text) with
  | Except.ok t => Except.ok (postprocessReply t)
  | Except.error e => Except.error e

/-- The f-string prompt of `ask_question` (agent.py line 78). -/
def askPrompt (transcript question : String) : String :=
  "Context: " ++ transcript ++ "\n\nQuestion: " ++ question
    ++ "\n\nAnswer concisely based on context:"

/-- `ask_question` (agent.py lines 77-80): no try/except, no post-processing;
an exception propagates. -/
def ask_question (gen : String → Except String String)
    (transcript question : String) : Except String String :=
  gen (askPrompt transcript question)

theorem data_append (s t : String) : (s ++ t).data = s.data ++ t.data := rfl

theorem buildPrompt_summarize (text : String) :
    buildPrompt "Summarize" text
      = "Create a comprehensive bullet-point summary:\n\n" ++ text := rfl

theorem buildPrompt_elaborate (text : String) :
    buildPrompt "Elaborate" text
      = "Explain the concepts simply for a beginner:\n\n" ++ text := rfl

theorem buildPrompt_actionItems (text : String) :
    buildPrompt "Action Items" text
      = "Identify tasks and assignments as a checklist:\n\n" ++ text := rfl

theorem buildPrompt_quiz (text : String) :
    buildPrompt "Quiz" text
      = "Generate 3 quiz questions with answers at the bottom:\n\n" ++ text := rfl

theorem buildPrompt_mindMap (text : String) :
    buildPrompt "Mind Map" text
      = "\n            Create a Mermaid.js flowchart code to visualize connections.\n            - Start with 'graph TD'.\n            - Use short node labels.\n            - Do NOT use markdown code blocks. Return raw code only.\n            Text: "
          ++ text ++ "\n            " := rfl

/-- C1: for every non-empty transcript text and every supported task, the
prompt built by `think_and_process` contains the full transcript text
verbatim as a substring. -/
theorem buildPrompt_contains_text (text task : String) (htext : text ≠ "")
    (htask : task ∈ supportedTasks) : text.data <:+: (buildPrompt task text).data := by
  have hcases :
      task = "Summarize" ∨ task = "Elaborate" ∨ task = "Action Items"
        ∨ task = "Quiz" ∨ task = "Mind Map" := by
    simpa [supportedTasks] using htask
  rcases hcases with rfl | rfl | rfl | rfl | rfl
  · exact ⟨"Create a comprehensive bullet-point summary:\n\n".data, [], by
      rw [buildPrompt_summarize]; simp [data_append]⟩
  · exact ⟨"Explain the concepts simply for a beginner:\n\n".data, [], by
      rw [buildPrompt_elaborate]; simp [data_append]⟩
  · exact ⟨"Identify tasks and assignments as a checklist:\n\n".data, [], by
      rw [buildPrompt_actionItems]; simp [data_append]⟩
  · exact ⟨"Generate 3 quiz questions with answers at the bottom:\n\n".data, [], by
      rw [buildPrompt_quiz]; simp [data_append]⟩
  · exact ⟨"\n            Create a Mermaid.js flowchart code to visualize connections.\n            - Start with 'graph TD'.\n            - Use short node labels.\n            - Do NOT use markdown code blocks. Return raw code only.\n            Text: ".data,
      "\n            ".data, by
      rw [buildPrompt_mindMap]; simp [data_append]⟩

/-- C1 witness: the claim at transcript "hello", task "Summarize". -/
theorem buildPrompt_contains_text_witness :
    ("hello" : String).data <:+: (buildPrompt "Summarize" "hello").data :=
  buildPrompt_contains_text "hello" "Summarize" (by decide) (by decide)

/-- C9: for the transcript "Speaker 1: Hello. Speaker 2: Hi." and task
"Action Items", the built prompt contains the instruction substring
"Identify tasks and assignments as a checklist" followed, later in the
string, by the transcript text. -/
theorem actionItems_prompt_scenario :
    ∃ mid : String,
      buildPrompt "Action Items" "Speaker 1: Hello. Speaker 2: Hi."
        = "Identify tasks and assignments as a checklist"
            ++ (mid ++ "Speaker 1: Hello. Speaker 2: Hi.") :=
  ⟨":\n\n", rfl⟩

theorem removeAux_nil (pat : List Char) (n : Nat) : removeAux pat n [] = [] := by
  cases n <;> rfl

theorem removeAux_cons_of_no_match {pat : List Char} {c : Char} {rest : List Char}
    (n : Nat) (h : ¬ pat <+: (c :: rest)) :
    removeAux pat (n + 1) (c :: rest) = c :: removeAux pat n rest := by
  simp [removeAux, h]

theorem removeAux_not_bt_head (n : Nat) (t : List Char) (h : ¬ ['`'] <+: t) :
    ¬ ['`'] <+: removeAux fencePat n t := by
  cases n with
  | zero => exact h
  | succ n =>
    cases t with
    | nil => rw [removeAux_nil]; exact h
    | cons c r =>
      have hc : c ≠ '`' := fun hce => h ⟨r, by simp [hce]⟩
      have hp : ¬ fencePat <+: (c :: r) :=
        fun hq => hc (List.cons_prefix_cons.mp hq).1.symm
      rw [removeAux_cons_of_no_match n hp]
      exact fun hq => hc (List.cons_prefix_cons.mp hq).1.symm

theorem removeAux_not_btbt (n : Nat) (r : List Char) (h : ¬ ['`', '`'] <+: r) :
    ¬ ['`', '`'] <+: removeAux fencePat n r := by
  cases n with
  | zero => exact h
  | succ n =>
    cases r with
    | nil => rw [removeAux_nil]; exact h
    | cons c r2 =>
      by_cases hc : c = '`'
      · subst hc
        have h2 : ¬ ['`'] <+: r2 := fun hq => by
          obtain ⟨u, hu⟩ := hq
          exact h ⟨u, by rw [← hu]; simp⟩
        have hp : ¬ fencePat <+: ('`' :: r2) := fun hq =>
          h2 (List.IsPrefix.trans ⟨['`'], rfl⟩ (List.cons_prefix_cons.mp hq).2)
        rw [removeAux_cons_of_no_match n hp]
        exact fun hq =>
          removeAux_not_bt_head n r2 h2 (List.cons_prefix_cons.mp hq).2
      · have hp : ¬ fencePat <+: (c :: r2) :=
          fun hq => hc ((List.cons_prefix_cons.mp hq).1.symm)
        rw [removeAux_cons_of_no_match n hp]
        exact fun hq => hc ((List.cons_prefix_cons.mp hq).1.symm)

theorem removeAux_fence_free (n : Nat) :
    ∀ s : List Char, s.length ≤ n → ¬ fencePat <:+: removeAux fencePat n s := by
  induction n with
  | zero =>
    intro s hs
    have hnil : s = [] := List.eq_nil_of_length_eq_zero (Nat.le_zero.mp hs)
    subst hnil
    rw [removeAux_nil]
    rintro ⟨u, v, huv⟩
    simp [fencePat] at huv
  | succ n ih =>
    intro s hs
    cases s with
    | nil =>
      rintro ⟨u, v, huv⟩
      rw [removeAux_nil] at huv
      simp [fencePat] at huv
    | cons c rest =>
      have hrest : rest.length ≤ n := by simpa using hs
      by_cases hp : fencePat <+: (c :: rest)
      · have hstep :
            removeAux fencePat (n + 1) (c :: rest)
              = removeAux fencePat n ((c :: rest).drop fencePat.length) := by
          simp [removeAux, hp]
        rw [hstep]
        apply ih
        rw [List.length_drop]
        simp only [List.length_cons, fencePat, List.length]
        omega
      · rw [removeAux_cons_of_no_match n hp]
        rw [List.infix_cons_iff]
        rintro (hpre | hinf)
        · by_cases hc : c = '`'
          · subst hc
            have h2 : ¬ ['`', '`'] <+: rest := fun hq => by
              obtain ⟨u, hu⟩ := hq
              exact hp ⟨u, by rw [← hu]; simp [fencePat]⟩
            exact removeAux_not_btbt n rest h2 (List.cons_prefix_cons.mp hpre).2
          · exact hc ((List.cons_prefix_cons.mp hpre).1.symm)
        · exact ih rest hrest hinf

theorem pyRemove_fence_free (s : List Char) : ¬ fencePat <:+: pyRemove fencePat s :=
  removeAux_fence_free s.length s le_rfl

theorem pyStrip_sublist_within (s : List Char) : pyStrip s <:+: s := by
  unfold pyStrip
  have h1 : s.dropWhile pySpace <:+ s := List.dropWhile_suffix _
  have h2 :
      (s.dropWhile pySpace).reverse.dropWhile pySpace
        <:+ (s.dropWhile pySpace).reverse := List.dropWhile_suffix _
  obtain ⟨u, hu⟩ := h2
  have h3 :
      ((s.dropWhile pySpace).reverse.dropWhile pySpace).reverse
        <+: s.dropWhile pySpace := by
    refine ⟨u.reverse, ?_⟩
    have := congrArg List.reverse hu
    simpa [List.reverse_append] using this
  exact h3.isInfix.trans h1.isInfix

/-- A string contains a triple-backtick fence marker. -/
def hasFence (s : String) : Prop := fencePat <:+: s.data

theorem postprocessReply_fence_free (s : String) : ¬ hasFence (postprocessReply s) := by
  intro h
  have h' : fencePat <:+: pyRemove fencePat (pyRemove mermaidPat s.data) :=
    List.IsInfix.trans h (pyStrip_sublist_within _)
  exact pyRemove_fence_free _ h'

/-- Lifts `hasFence`-freedom over the outcome of a model call: a normal reply
must be fence-free, a raised exception carries no reply. -/
def exceptFenceFree : Except String String → Prop
  | Except.ok r => ¬ hasFence r
  | Except.error _ => True

/-- C5: for every model reply to the Mind Map task, whether or not the reply
contains triple-backtick code-fence markers, the post-processed result
returned by `think_and_process` contains no triple-backtick fence markers. -/
theorem mindMap_result_fence_free (gen : String → Except String String)
    (text : String) : exceptFenceFree (think_and_process gen text "Mind Map") := by
  unfold think_and_process
  cases gen (buildPrompt "Mind Map" text) with
  | ok t => exact postprocessReply_fence_free t
  | error e => trivial

/-- C10: the code-fence stripping post-processing of line 75 is applied to the
model reply of every analysis task, not only Mind Map; in particular a
Summarize reply containing triple-backtick markers is returned with those
markers removed. -/
theorem postprocess_applies_to_all_tasks :
    (∀ (gen : String → Except String String) (text task : String),
        exceptFenceFree (think_and_process gen text task))
      ∧ think_and_process (fun _ => Except.ok "A ```B``` C") "t" "Summarize"
          = Except.ok "A B C" := by
  constructor
  · intro gen text task
    unfold think_and_process
    cases gen (buildPrompt task text) with
    | ok t => exact postprocessReply_fence_free t
    | error e => trivial
  · rfl

/-- C2 counterexample: at the concrete failing gateway
`fun _ => Except.error "quota exceeded"`, `think_and_process` and
`ask_question` propagate the raised error as is instead of returning it as a
text message embedded in the result; only `listen_and_transcribe` embeds it.
This refutes the claim that every Model Gateway operation embeds the failure
in the result. -/
theorem generation_error_propagates :
    think_and_process (fun _ => Except.error "quota exceeded") "t" "Summarize"
        = Except.error "quota exceeded"
      ∧ ask_question (fun _ => Except.error "quota exceeded") "t" "q"
        = Except.error "quota exceeded" :=
  ⟨rfl, rfl⟩

/-- C2 amended: when the external model call fails, `listen_and_transcribe`
returns the failure embedded as the text "Agent Error: ..." (lines 56-57),
while `think_and_process` and `ask_question`, which have no try/except,
propagate the raised error unchanged. -/
theorem error_surfacing_by_operation
    (genA : String → Nat → Except String String)
    (gen : String → Except String String) (e : String)
    (audio : Nat) (text task transcript question : String) :
    (genA transcriptionPrompt audio = Except.error e →
        listen_and_transcribe genA audio = "Agent Error: " ++ e)
      ∧ (gen (buildPrompt task text) = Except.error e →
          think_and_process gen text task = Except.error e)
      ∧ (gen (askPrompt transcript question) = Except.error e →
          ask_question gen transcript question = Except.error e) := by
  refine ⟨fun h => ?_, fun h => ?_, fun h => ?_⟩ <;>
    simp [listen_and_transcribe, think_and_process, ask_question, h]

/-- C2 amended witness: the amended behaviour at the concrete failing
gateway `fun _ => Except.error "boom"`. -/
theorem error_surfacing_by_operation_witness :
    listen_and_transcribe (fun _ _ => Except.error "boom") 0 = "Agent Error: boom"
      ∧ think_and_process (fun _ => Except.error "boom") "txt" "Summarize"
          = Except.error "boom"
      ∧ ask_question (fun _ => Except.error "boom") "txt" "q"
          = Except.error "boom" :=
  ⟨(error_surfacing_by_operation (fun _ _ => Except.error "boom")
      (fun _ => Except.error "boom") "boom" 0 "txt" "Summarize" "txt" "q").1 rfl,
   (error_surfacing_by_operation (fun _ _ => Except.error "boom")
      (fun _ => Except.error "boom") "boom" 0 "txt" "Summarize" "txt" "q").2.1 rfl,
   (error_surfacing_by_operation (fun _ _ => Except.error "boom")
      (fun _ => Except.error "boom") "boom" 0 "txt" "Summarize" "txt" "q").2.2 rfl⟩

/-- The Streamlit session state of `main` (agent.py lines 153, 157, 172-173,
175): the stored transcript, the last analysis result and the task that
produced it, each absent until first set. -/
structure Session where
  transcript : Option String
  result : Option String
  task : Option String

/-- The user actions `main` wires to gateway calls and session updates. Each
event carries the gateway oracle answering the calls it triggers. -/
inductive UIEvent where
  | transcribe (gen : String → Nat → Except String String)
  | analyze (task : String) (gen : String → Except String String)
  | chat (q : String) (gen : String → Except String String)
  | exportDocs

/-- The four task buttons of the Knowledge Engine (lines 164-167). `Quiz` has
a prompt template but no button. -/
def analyzeTasks : List String := ["Summarize", "Elaborate", "Action Items", "Mind Map"]

/-- Analysis buttons are rendered only under `if 'transcript' in
st.session_state` (line 157). -/
def canAnalyze (s : Session) : Bool := s.transcript.isSome

/-- The download buttons are rendered under `if 'result' in st.session_state`
nested inside the transcript check (lines 157, 175, 185-190). -/
def canExport (s : Session) : Bool := s.transcript.isSome && s.result.isSome

/-- One step of `main`'s event handling. `none` means the action's widget is
not rendered in state `s`. A transcribe click stores the transcript (line
153); an analysis click stores result and task (lines 172-173) unless the
gateway raises, which aborts the script run leaving the session unchanged; a
chat question displays the answer without storing it (line 199); export
serializes without mutating the session. -/
def step (s : Session) : UIEvent → Option Session
  | UIEvent.transcribe gen =>
      some { s with transcript := some (listen_and_transcribe gen 0) }
  | UIEvent.analyze task gen =>
      match s.transcript with
      | none => none
      | some t =>
        if task ∈ analyzeTasks then
          match think_and_process gen t task with
          | Except.ok r => some { s with result := some r, task := some task }
          | Except.error _ => some s
        else none
  | UIEvent.chat _ _ =>
      match s.transcript with
      | none => none
      | some _ => some s
  | UIEvent.exportDocs =>
      if canExport s then some s else none

/-- The session states reachable from the empty initial session. -/
inductive Reachable : Session → Prop where
  | init : Reachable ⟨none, none, none⟩
  | next {s s' : Session} (e : UIEvent) (hs : Reachable s)
      (hstep : step s e = some s') : Reachable s'

/-- In every reachable session, a stored analysis result implies a stored
transcript: the result is only ever written while the transcript check of
line 157 holds, and no step removes the transcript. -/
theorem reachable_result_transcript (s : Session) (hs : Reachable s) :
    s.result.isSome = true → s.transcript.isSome = true := by
  induction hs with
  | init => intro h; simp at h
  | next e hs hstep ih =>
    rename_i s₀ s₁
    cases e with
    | transcribe gen =>
      simp only [step] at hstep
      cases hstep
      intro _
      rfl
    | analyze task gen =>
      obtain ⟨tr, res, tk⟩ := s₀
      cases tr with
      | none => simp only [step] at hstep; cases hstep
      | some t =>
        simp only [step] at hstep
        by_cases htask : task ∈ analyzeTasks
        · rw [if_pos htask] at hstep
          cases hres : think_and_process gen t task with
          | ok r =>
            rw [hres] at hstep
            cases hstep
            intro _
            rfl
          | error e =>
            rw [hres] at hstep
            cases hstep
            exact ih
        · rw [if_neg htask] at hstep; cases hstep
    | chat q gen =>
      simp only [step] at hstep
      cases ht : s₀.transcript with
      | none => rw [ht] at hstep; cases hstep
      | some t => rw [ht] at hstep; cases hstep; exact ih
    | exportDocs =>
      simp only [step] at hstep
      by_cases hc : canExport s₀ = true
      · rw [if_pos hc] at hstep; cases hstep; exact ih
      · rw [if_neg (by simpa using hc)] at hstep; cases hstep

/-- C4 counterexample: the claim fails on the code. The state with
`transcript = some ""` (an empty gateway reply stored by a transcribe click)
is reachable and its analysis buttons are rendered, yet the stored
transcript is empty: the UI checks only that the transcript key exists, not
that it is non-empty. -/
theorem empty_transcript_analyzable :
    ¬ (∀ s : Session, Reachable s → (canAnalyze s = true ∨ canExport s = true) →
        ∃ t, s.transcript = some t ∧ t ≠ "") := by
  intro hclaim
  obtain ⟨t, ht, hne⟩ :=
    hclaim ⟨some "", none, none⟩
      (Reachable.next (UIEvent.transcribe (fun _ _ => Except.ok "")) Reachable.init rfl)
      (Or.inl rfl)
  exact hne (Option.some.inj ht).symm

/-- C4 amended: in every reachable session state in which an analysis or
export action can be performed, the session's transcript exists (the key is
set); it need not be non-empty, since an empty gateway reply is stored as an
empty transcript with the actions still enabled. -/
theorem analysis_export_need_transcript (s : Session) (hs : Reachable s)
    (havail : canAnalyze s = true ∨ canExport s = true) :
    ∃ t, s.transcript = some t := by
  rcases havail with h | h
  · exact Option.isSome_iff_exists.mp (by simpa [canAnalyze] using h)
  · exact Option.isSome_iff_exists.mp
      (((Bool.and_eq_true _ _).mp (by simpa [canExport] using h)).1)

/-- C4 amended witness: the amended claim at the reachable state holding
transcript "t". -/
theorem analysis_export_need_transcript_witness :
    ∃ t, (Session.mk (some "t") none none).transcript = some t :=
  analysis_export_need_transcript ⟨some "t", none, none⟩
    (Reachable.next (UIEvent.transcribe (fun _ _ => Except.ok "t")) Reachable.init rfl)
    (Or.inl rfl)

/-- The prompts an event sends to the Model Gateway from state `s`: one
`generate_content` call per transcribe (line 54), analysis (line 74) or chat
(line 79) action; export sends none. -/
def eventCalls (s : Session) : UIEvent → List String
  | UIEvent.transcribe _ => [transcriptionPrompt]
  | UIEvent.analyze task _ =>
      match s.transcript with
      | none => []
      | some t => if task ∈ analyzeTasks then [buildPrompt task t] else []
  | UIEvent.chat q _ =>
      match s.transcript with
      | none => []
      | some t => [askPrompt t q]
  | UIEvent.exportDocs => []

/-- Processes a list of events, accumulating the prompts sent to the
gateway; an unavailable action leaves the session unchanged. -/
def runEvents : Session → List UIEvent → Session × List String
  | s, [] => (s, [])
  | s, e :: es =>
    let rest := runEvents ((step s e).getD s) es
    (rest.1, eventCalls s e ++ rest.2)

/-- `main` (agent.py lines 114-199): with an empty API key, `if not api_key`
holds, a warning is shown and `main` returns before the agent is constructed
(lines 135-139); otherwise the session's events are processed. Returns the
final session, the prompts sent to the gateway, and whether the
missing-credential warning was shown. -/
def mainRun (apiKey : String) (events : List UIEvent) : Session × List String × Bool :=
  if apiKey = "" then (⟨none, none, none⟩, [], true)
  else ((runEvents ⟨none, none, none⟩ events).1,
        (runEvents ⟨none, none, none⟩ events).2, false)

/-- C7: when the supplied API credential is empty, every action is blocked
behind the missing-credential warning and no call to the Model Gateway
occurs, whatever events the user attempts. -/
theorem empty_api_key_blocks_actions (apiKey : String) (events : List UIEvent)
    (h : apiKey = "") :
    (mainRun apiKey events).2.1 = [] ∧ (mainRun apiKey events).2.2 = true := by
  subst h
  simp [mainRun]

/-- C7 witness: the empty key with an attempted export event. -/
theorem empty_api_key_blocks_actions_witness :
    (mainRun "" [UIEvent.exportDocs]).2.1 = []
      ∧ (mainRun "" [UIEvent.exportDocs]).2.2 = true :=
  empty_api_key_blocks_actions "" [UIEvent.exportDocs] rfl

/-- The live temporary files: `tempfile.NamedTemporaryFile(delete=False)`
registers a fresh file that outlives its `with` block. -/
structure TempFS where
  nextId : Nat
  live : List Nat

/-- Lines 146-148: create the temp audio file (`delete=False`) and write the
recording; the file id is kept as `tmp_path`. -/
def makeTempAudioFile (fs : TempFS) : Nat × TempFS :=
  (fs.nextId, ⟨fs.nextId + 1, fs.nextId :: fs.live⟩)

/-- Lines 145-154: the transcribe click. The temp file is created, the
gateway is called through `listen_and_transcribe` (whose try/except folds a
failure into the returned text), and the transcript is returned. `main`
contains no `os.remove`/`os.unlink`: no path deletes the file. -/
def transcribeClick (gen : String → Nat → Except String String) (fs : TempFS) :
    String × TempFS :=
  (listen_and_transcribe gen (makeTempAudioFile fs).1, (makeTempAudioFile fs).2)

/-- C3 counterexample: after a transcribe click on a fresh state, the created
temporary audio file (id 0) is still live — it was not deleted when
transcription completed, neither on the success path nor on the gateway
failure path. -/
theorem temp_audio_file_not_deleted :
    0 ∈ (transcribeClick (fun _ _ => Except.ok "hello") ⟨0, []⟩).2.live
      ∧ 0 ∈ (transcribeClick (fun _ _ => Except.error "network down") ⟨0, []⟩).2.live :=
  ⟨by decide, by decide⟩

/-- C3 amended: the temporary audio file created for a transcription is never
deleted: on every exit path, success or gateway failure, it remains live
after the click completes (`delete=False` with no later removal). -/
theorem temp_audio_file_persists (gen : String → Nat → Except String String)
    (fs : TempFS) :
    (transcribeClick gen fs).2.live = fs.nextId :: fs.live := rfl

/-- `clean` (line 87): `t.encode('latin-1', 'replace').decode('latin-1')`
replaces every character above code point 255 with the placeholder. -/
def cleanChar (c : Char) : Char := if c.toNat ≤ 255 then c else '?'

/-- The `clean` helper applied to a whole string. -/
def clean (t : String) : String := String.mk (t.data.map cleanChar)

/-- The document text `create_pdf` hands to the fpdf cells, in order (lines
89-99), with every user-supplied piece passed through `clean`. -/
def pdfContent (title transcript notes : String) : List Char :=
  (clean title).data ++ "AI Notes:".data ++ (clean notes).data
    ++ "Transcript:".data ++ (clean transcript).data

/-- Abstraction of `pdf.output(dest='S').encode('latin-1')` (line 100):
strict latin-1 encoding of the document text, which fails (raises) on any
character above 255 and otherwise yields the byte buffer. -/
def latin1EncodeStrict (s : List Char) : Option (List Nat) :=
  if s.all (fun c => c.toNat ≤ 255) then some (s.map Char.toNat) else none

/-- `create_pdf` (lines 83-100). -/
def create_pdf (title transcript notes : String) : Option (List Nat) :=
  latin1EncodeStrict (pdfContent title transcript notes)

theorem clean_all_le (t : String) :
    ((clean t).data.all fun c => decide (c.toNat ≤ 255)) = true := by
  rw [List.all_eq_true]
  intro c hc
  simp only [clean, List.mem_map] at hc
  obtain ⟨a, _, rfl⟩ := hc
  by_cases h : a.toNat ≤ 255
  · simp [cleanChar, h]
  · rw [cleanChar, if_neg h]; decide

/-- C8: for every (title, transcript, notes) input, including characters
outside latin-1, `create_pdf` does not fail: every out-of-range character is
replaced with the placeholder and a PDF byte buffer is returned. -/
theorem create_pdf_never_fails (title transcript notes : String) :
    (create_pdf title transcript notes).isSome = true
      ∧ ∀ c : Char, 255 < c.toNat → cleanChar c = '?' := by
  constructor
  · have hall :
        ((pdfContent title transcript notes).all fun c => decide (c.toNat ≤ 255))
          = true := by
      simp only [pdfContent, List.all_append, Bool.and_eq_true]
      exact ⟨⟨⟨⟨clean_all_le title, by decide⟩, clean_all_le notes⟩, by decide⟩,
        clean_all_le transcript⟩
    unfold create_pdf latin1EncodeStrict
    rw [hall]
    simp
  · intro c hc
    rw [cleanChar, if_neg (Nat.not_le.mpr hc)]

/-- C8 witness: the euro sign is outside latin-1; the PDF is still produced
and the character is replaced. -/
theorem create_pdf_never_fails_witness :
    (create_pdf "€" "a" "b").isSome = true ∧ cleanChar '€' = '?' :=
  ⟨(create_pdf_never_fails "€" "a" "b").1,
   (create_pdf_never_fails "€" "a" "b").2 '€' (by decide)⟩
